import Mathlib

/-!
Verification development for the log-driven resource tracker in
`Ougi/wakfu_ougi_resource_tracker.py` (class `WakfuOugiResourceTracker`).

The embedding models the domain state owned by `parse_log_line` together with
the line-processing body itself.  Python semantics that matter here and how
they are modelled:

* The whole body of `parse_log_line` runs inside `try: ... except Exception:
  pass`.  We model the body as a function returning
  `TrackerState × Option PyErr`: the state holds every mutation performed
  before the body returned or raised, and the second component records the
  swallowed exception, if any.  The public `parse_log_line` is the first
  projection (the caller never sees an exception).
* `combat_ended` is a local variable assigned only inside the two combat-end
  branches (lines 993-998).  A line that enters neither branch reaches
  `if combat_ended:` (line 1000) with the variable unbound, which raises
  `UnboundLocalError` — modelled as `PyErr.unboundLocal "combat_ended"`.
* `self.ougi_spells` is never assigned anywhere in the class (`__init__` only
  defines `iop_spells`), so line 943 (`spell_name in self.ougi_spells`)
  raises `AttributeError`.  Likewise `self.spell_cost_map` (line 1513) and
  `self.current_turn_spells` (line 1023) are never assigned.  Absent
  attributes are modelled as `Option`-valued constants equal to `none`,
  and reading them yields `PyErr.attributeError`.
* `hash(line.strip())` is modelled by the trimmed line itself (an injective
  hash).  The duplicate window `self.processed_lines` is a Python `set`; we
  represent it as a list in insertion order.  `list(set)` enumerates a set in
  an arbitrary, implementation-defined order (string hashes are randomized
  per process), so the enumeration used by the trim at line 919 is an
  explicit parameter `enum` of the model.
* Presentation-only attributes (icon labels, pixmaps, fade/bounce animation
  variables, debug-print dedup flags) are omitted from the state; the spec
  declares them out of scope and no claim mentions them.
-/

/-- Exceptions that the body of `parse_log_line` can raise (and swallow). -/
inductive PyErr where
  | unboundLocal (name : String)
  | attributeError (name : String)
deriving DecidableEq

/-- Entry of `self.timeline_entries` (line 1521).  The source dict also
carries `pixmap`, `alpha` and `slide`, which are presentation-only animation
fields and are omitted. -/
structure TimelineEntry where
  spell : String
  cost : String
deriving DecidableEq

/-- Domain state of `WakfuOugiResourceTracker` (the fields of `__init__`
that `parse_log_line` reads or writes, lines 461-557). -/
structure TrackerState where
  rage : Nat
  tracker : Nat
  prey : Bool
  current_rage : Nat
  current_tracker : Nat
  current_prey : Bool
  pending_rage_loss : Bool
  rage_loss_caster : Option String
  rage_loss_spell : Option String
  in_combat : Bool
  tracked_player_name : Option String
  is_sac_patate_combat : Bool
  is_ougi_turn : Bool
  overlay_visible : Bool
  processed_lines : List String
  last_spell_caster : Option String
  last_etendard_cast : Bool
  timeline_entries : List TimelineEntry
deriving DecidableEq

/-- Initial values assigned in `__init__` (lines 461-557). -/
def init_state : TrackerState :=
  { rage := 0, tracker := 0, prey := false,
    current_rage := 0, current_tracker := 0, current_prey := false,
    pending_rage_loss := false, rage_loss_caster := none, rage_loss_spell := none,
    in_combat := false, tracked_player_name := none,
    is_sac_patate_combat := false, is_ougi_turn := false, overlay_visible := false,
    processed_lines := [], last_spell_caster := none, last_etendard_cast := false,
    timeline_entries := [] }

/-- Substring test on character lists (Python's `sub in line`). -/
def listContainsSub (pat : List Char) : List Char → Bool
  | [] => pat.isPrefixOf []
  | c :: tl => pat.isPrefixOf (c :: tl) || listContainsSub pat tl

/-- Python's `sub in line` for strings. -/
def containsSub (line pat : String) : Bool :=
  listContainsSub pat.toList line.toList

/-- Strip leading and trailing whitespace from a character list. -/
def listTrim (cs : List Char) : List Char :=
  ((cs.dropWhile Char.isWhitespace).reverse.dropWhile Char.isWhitespace).reverse

/-- Python's `str.strip()`. -/
def pyStrip (s : String) : String :=
  String.mk (listTrim s.toList)

/-- Python truthiness of an optional string: `None` and `""` are falsy. -/
def optFalsy : Option String → Bool
  | none => true
  | some t => t == ""

/-- Membership in the duplicate window (Python's `line_hash in self.processed_lines`). -/
def pyMem (a : String) : List String → Bool
  | [] => false
  | b :: t => (a == b) || pyMem a t

/-- Generic model of `re.search` for a pattern that begins with a literal:
try every start position in order; at a position where the literal matches,
run the continuation on the rest; on failure keep scanning (first success
wins, as in `re.search`). -/
def scanOpt {α : Type} (lit : List Char) (k : List Char → Option α) : List Char → Option α
  | [] => none
  | c :: tl =>
    (if lit.isPrefixOf (c :: tl) then k ((c :: tl).drop lit.length) else none).orElse
      (fun _ => scanOpt lit k tl)

/-- Continuation for one-or-more digits followed by a literal suffix
(the `(\d+)` of the gain patterns, greedy). -/
def digitsThen (suffix : List Char) (cs : List Char) : Bool :=
  let ds := cs.takeWhile Char.isDigit
  decide (ds ≠ []) && suffix.isPrefixOf (cs.drop ds.length)

/-- Scan for `lit`, then one-or-more digits, then `suffix` — the shape of the
counter-gain regexes. -/
def scanLitDigits (lit suffix : List Char) : List Char → Bool
  | [] => false
  | c :: tl =>
    (lit.isPrefixOf (c :: tl) && digitsThen suffix ((c :: tl).drop lit.length)) ||
      scanLitDigits lit suffix tl

/-- Wrap-counter gain pattern, line 1036: `rage \(\+(\d+) Niv\.\)`. -/
def rageGainMatch (line : String) : Bool :=
  scanLitDigits "rage (+".toList " Niv.)".toList line.toList

/-- Untagged stack-counter gain pattern, line 1131: `tracker \(\+(\d+) Niv\.\)`. -/
def trackerGainMatch (line : String) : Bool :=
  scanLitDigits "tracker (+".toList " Niv.)".toList line.toList

/-- Tagged stack-counter gain pattern, line 1153:
`tracker \(\+(\d+) Niv\.\) \((Compulsion|rage)\)` (the alternation expanded). -/
def trackerTaggedMatch (line : String) : Bool :=
  scanLitDigits "tracker (+".toList " Niv.) (Compulsion)".toList line.toList ||
    scanLitDigits "tracker (+".toList " Niv.) (rage)".toList line.toList

/-- Preparation gain pattern, line 1190: `Pr√©paration \(\+(\d+) Niv\.\)`. -/
def prepGainMatch (line : String) : Bool :=
  scanLitDigits "Pr√©paration (+".toList " Niv.)".toList line.toList

/-- A single apostrophe, built from its code point so the source file
contains no bare quote characters. -/
def apoS : String := String.mk [Char.ofNat 39]

/-- Literal of line 1140: the untagged-expiry marker (apostrophes spliced). -/
def trackerLossIsoMarker : String :=
  "n" ++ apoS ++ "est plus sous l" ++ apoS ++ "emprise de " ++ apoS ++ "tracker" ++ apoS
    ++ " (Iop isol√©)"

/-- Literal of line 1166: the tagged-expiry marker (apostrophes spliced). -/
def trackerLossCompMarker : String :=
  "n" ++ apoS ++ "est plus sous l" ++ apoS ++ "emprise de " ++ apoS ++ "tracker" ++ apoS
    ++ " (Compulsion)"

/-- Continuation of the damage pattern of line 1204 after its leading
literal: `([^:]+):\s*-(\d+)\s*PV`. -/
def damageAfterInfo (cs : List Char) : Bool :=
  let name := cs.takeWhile (fun c => c ≠ ':')
  if name = [] then false
  else
    match cs.drop name.length with
    | ':' :: r =>
      let ws := r.takeWhile Char.isWhitespace
      match r.drop ws.length with
      | '-' :: r2 =>
        let ds := r2.takeWhile Char.isDigit
        if ds = [] then false
        else
          let r3 := r2.drop ds.length
          let ws2 := r3.takeWhile Char.isWhitespace
          "PV".toList.isPrefixOf (r3.drop ws2.length)
      | _ => false
    | _ => false

/-- Damage-line pattern, line 1204:
`\[Information \(combat\)\] ([^:]+):\s*-(\d+)\s*PV`. -/
def damageLineMatch (line : String) : Bool :=
  (scanOpt "[Information (combat)] ".toList
    (fun r => if damageAfterInfo r then some () else none) line.toList).isSome

/-- Turn-pass marker of line 1065 (singular or plural phrasing). -/
def isTurnPassLine (line : String) : Bool :=
  containsSub line "report√©e pour le tour suivant" ||
    containsSub line "report√©es pour le tour suivant"

/-- Generic actor of an actor-scoped event line: `group(1)` of the
`\[Information \(combat\)\] ([^:]+):` prefix shared by the patterns at
lines 1039, 1142, 1168 and 1204. -/
def bracketActor (line : String) : Option String :=
  scanOpt "[Information (combat)] ".toList
    (fun r =>
      let name := r.takeWhile (fun c => c ≠ ':')
      if name = [] then none
      else
        match r.drop name.length with
        | ':' :: _ => some (String.mk name)
        | _ => none)
    line.toList

/-- One classification of "counter gain / counter loss" lines: any line
matching one of the counter-event patterns of the handlers at lines
1036, 1131, 1140, 1153, 1166, 1181 and 1190. -/
def isCounterEventLine (line : String) : Bool :=
  rageGainMatch line || trackerGainMatch line || trackerTaggedMatch line ||
    prepGainMatch line ||
    containsSub line trackerLossIsoMarker || containsSub line trackerLossCompMarker ||
    (containsSub line "(tracker)" && containsSub line "PV")

/-- Continuation of the colon-separated caster pattern of line 927 after the
`\[Information \(combat\)\]` literal: `\s+([^:]+):\s+lance le sort`.  The
greedy `\s+` takes the maximal whitespace run and `([^:]+)` then runs to the
first colon. -/
def casterColonK (r0 : List Char) : Option String :=
  let ws := r0.takeWhile Char.isWhitespace
  if ws = [] then none
  else
    let r1 := r0.drop ws.length
    let name := r1.takeWhile (fun c => c ≠ ':')
    if name = [] then none
    else
      match r1.drop name.length with
      | ':' :: r2 =>
        let ws2 := r2.takeWhile Char.isWhitespace
        if ws2 = [] then none
        else if "lance le sort".toList.isPrefixOf (r2.drop ws2.length) then
          some (String.mk name)
        else none
      | _ => none

/-- Caster extraction with colon separator (regex of line 927). -/
def casterColonSearch (cs : List Char) : Option String :=
  scanOpt "[Information (combat)]".toList casterColonK cs

/-- Backtracking for `([^:]+)\s+lance le sort`: the greedy `[^:]+` tries the
longest capture first, shrinking until whitespace plus the literal follows. -/
def casterSpaceTry (run rest : List Char) : Nat → Option String
  | 0 => none
  | k + 1 =>
    let name := run.take (k + 1)
    let after := run.drop (k + 1) ++ rest
    let ws2 := after.takeWhile Char.isWhitespace
    if decide (ws2 ≠ []) && "lance le sort".toList.isPrefixOf (after.drop ws2.length) then
      some (String.mk name)
    else casterSpaceTry run rest k

/-- Continuation of the space-separated caster pattern of line 929 after the
`\[Information \(combat\)\]` literal: `\s+([^:]+)\s+lance le sort`. -/
def casterSpaceK (r0 : List Char) : Option String :=
  let ws := r0.takeWhile Char.isWhitespace
  if ws = [] then none
  else
    let r1 := r0.drop ws.length
    let run := r1.takeWhile (fun c => c ≠ ':')
    casterSpaceTry run (r1.drop run.length) run.length

/-- Caster extraction with space separator (regex of line 929). -/
def casterSpaceSearch (cs : List Char) : Option String :=
  scanOpt "[Information (combat)]".toList casterSpaceK cs

/-- Lines 927-929: try the colon-delimited form, then the space-delimited
form. -/
def extract_caster (line : String) : Option String :=
  match casterColonSearch line.toList with
  | some c => some c
  | none => casterSpaceSearch line.toList

/-- Spell-name regex of line 932: `lance le sort ([^\(\n]+)`. -/
def spellNameSearch (cs : List Char) : Option String :=
  scanOpt "lance le sort ".toList
    (fun r =>
      let run := r.takeWhile (fun c => c ≠ '(' && c ≠ '\n')
      if run = [] then none else some (String.mk run))
    cs

/-- The `spell_cost_map` attribute is read at line 1513 but never assigned
anywhere in the class: the attribute is absent, so the read raises
`AttributeError`. -/
def spell_cost_map : Option (List (String × String)) := none

/-- The `ougi_spells` attribute is read at line 943 but never assigned
anywhere in the class (`__init__` only defines `iop_spells`, line 487):
the read raises `AttributeError`. -/
def ougi_spells : Option (List String) := none

/-- The `current_turn_spells` attribute is read at line 1023 but never
assigned anywhere in the class: the read raises `AttributeError`. -/
def current_turn_spells : Option (List String) := none

/-- `self.timeline_max_slots` (line 556). -/
def timeline_max_slots : Nat := 5

/-- `self.spell_icon_stem_map` (lines 560-584). -/
def spell_icon_stem_map : List (String × String) :=
  [("√âp√©e c√©leste", "epeeceleste"), ("Fulgur", "fulgur"),
   ("Super Iop Punch", "superioppunch"), ("Jugement", "jugement"),
   ("Col√®re de Iop", "colere"), ("√âbranler", "ebranler"),
   ("Roknocerok", "roknocerok"), ("Fendoir", "fendoir"), ("Ravage", "ravage"),
   ("Jabs", "jabs"), ("Rafale", "rafale"), ("Torgnole", "torgnole"),
   ("Tann√©e", "tannee"), ("√âp√©e de Iop", "epeeduiop"), ("Bond", "bond"),
   ("Focus", "Focus"), ("√âventrail", "eventrail"), ("Uppercut", "uppercut"),
   ("Amplification", "Amplification"), ("Duel", "Duel"),
   ("√âtendard de bravoure", "Etandard"), ("Vertu", "Vertu"),
   ("Charge", "charge")]

/-- Python `dict.get`: `none` when the key is absent. -/
def pyDictGet (m : List (String × String)) (k : String) : Option String :=
  (m.find? (fun p => p.1 == k)).map (fun p => p.2)

/-- `add_spell_to_timeline` (lines 1510-1532).  The very first statement reads
the absent `spell_cost_map` attribute, so every call raises `AttributeError`
before touching the timeline; the remainder of the method (lookup of the icon
stem, silent ignore of unknown spells, append, and trim of the entry list to
`timeline_max_slots + 1` — the source keeps "one extra temporarily for
animating out the oldest") is translated under the `some` arm.  The
`pixmap` load and the display refresh are presentation-only and omitted. -/
def add_spell_to_timeline (spell_name : String) (entries : List TimelineEntry) :
    List TimelineEntry × Option PyErr :=
  let spell_key := pyStrip spell_name
  match spell_cost_map with
  | none => (entries, some (.attributeError "spell_cost_map"))
  | some m =>
    let cost? := pyDictGet m spell_key
    let icon? := pyDictGet spell_icon_stem_map spell_key
    if optFalsy cost? || optFalsy icon? then (entries, none)
    else
      let cost := match cost? with | some c => c | none => ""
      let compact := String.mk (cost.toList.filter (fun c => c ≠ ' '))
      let entries := entries ++ [⟨spell_key, compact⟩]
      let entries :=
        if entries.length > timeline_max_slots then
          entries.drop (entries.length - (timeline_max_slots + 1))
        else entries
      (entries, none)

/-- Fingerprint used by the duplicate window (lines 893, 903, 910):
`hash(line.strip())`, with the hash modelled as injective. -/
def fingerprint (line : String) : String := pyStrip line

/-- Window trim of lines 916-919: when the window exceeds 1000 entries, keep
the last 500 of `list(set)` — the set's arbitrary enumeration `enum`. -/
def trim_window (enum : List String → List String) (s : TrackerState) : TrackerState :=
  { s with processed_lines :=
      if s.processed_lines.length > 1000 then
        (enum s.processed_lines).drop ((enum s.processed_lines).length - 500)
      else s.processed_lines }

/-- Special-encounter marker test of line 921. -/
def sacMarker (line : String) : Bool :=
  containsSub line "Sac √† patate" &&
    (containsSub line "Quand tu auras fini de me frapper" ||
      containsSub line "abandonner" || containsSub line "Abandonne le combat")

/-- Line 921-922: set `is_sac_patate_combat` on a special-encounter marker. -/
def sac_update (line : String) (s : TrackerState) : TrackerState :=
  { s with is_sac_patate_combat :=
      if sacMarker line then true else s.is_sac_patate_combat }

/-- The long combat-end phrase of line 993 (redundant with its prefix). -/
def combatEndFull : String :=
  "Combat termin√©, cliquez ici pour rouvrir l" ++ apoS ++ "√©cran de fin de combat."

/-- Lines 993-998: the conditions under which `combat_ended` gets assigned.
`sacFlag` is the current `is_sac_patate_combat` (after the line-921 update). -/
def combat_end_cond (line : String) (sacFlag : Bool) : Bool :=
  (containsSub line "Combat termin√©" || containsSub line combatEndFull) ||
    ((containsSub line "est hors-combat" || containsSub line "est KO !") && sacFlag)

/-- Lines 946-990, reached only if the absent `ougi_spells` attribute were
present (dead code; translated for fidelity).  `cn?` is `caster_name` (already
stripped, possibly `None`), `spellName` is `spell_name` (the extracted name or
`"?"`). -/
def spell_branch_rest (spells : List String) (cn? : Option String) (spellName : String)
    (s : TrackerState) : TrackerState × Option PyErr :=
  let is_ougi_spell := spells.contains spellName
  let s :=
    if is_ougi_spell && optFalsy s.tracked_player_name then
      { s with tracked_player_name := cn? }
    else s
  let is_tracked_caster :=
    match cn?, s.tracked_player_name with
    | some c, some t => decide (c ≠ "") && decide (t ≠ "") && (pyStrip c == pyStrip t)
    | _, _ => false
  let s :=
    if !s.in_combat && is_tracked_caster then
      { s with in_combat := true, tracker := 0, current_tracker := 0 }
    else { s with in_combat := true }
  let s :=
    if is_ougi_spell && is_tracked_caster then
      { s with is_ougi_turn := true, overlay_visible := true }
    else s
  if is_tracked_caster && decide (spellName ≠ "") then
    let s :=
      if spellName == "√âtendard de bravoure" then { s with last_etendard_cast := true }
      else { s with last_etendard_cast := false }
    match add_spell_to_timeline spellName s.timeline_entries with
    | (tl, e?) => ({ s with timeline_entries := tl }, e?)
  else (s, none)

/-- The consolidated spell-cast branch, lines 925-990.  The caster (if either
regex of lines 927-929 matches) is recorded in `last_spell_caster` (line 940);
then line 943 reads the absent `ougi_spells` attribute and raises. -/
def spell_branch (line : String) (s : TrackerState) : TrackerState × Option PyErr :=
  let cn? := (extract_caster line).map pyStrip
  let spellName :=
    match spellNameSearch line.toList with
    | some r => pyStrip r
    | none => "?"
  let s :=
    match cn? with
    | some c => { s with last_spell_caster := some c }
    | none => s
  match ougi_spells with
  | none => (s, some (.attributeError "ougi_spells"))
  | some spells => spell_branch_rest spells cn? spellName s

/-- The combat-end branch, lines 1000-1029: reset every resource field, the
session flags, the confirmation sub-state and the timeline — but not
`tracked_player_name`, which the branch never touches.  Line 1023 then reads
the absent `current_turn_spells` attribute and raises (after all the resets,
before the presentation-only label hiding). -/
def combat_end_branch (s : TrackerState) : TrackerState × Option PyErr :=
  let s :=
    { s with
      in_combat := false,
      is_sac_patate_combat := false,
      is_ougi_turn := false,
      overlay_visible := false,
      rage := 0,
      tracker := 0,
      prey := false,
      current_rage := 0,
      current_tracker := 0,
      current_prey := false,
      pending_rage_loss := false,
      rage_loss_caster := none,
      rage_loss_spell := none,
      timeline_entries := [] }
  match current_turn_spells with
  | none => (s, some (.attributeError "current_turn_spells"))
  | some _ => (s, none)

/-- Lines 921-1029 (after the duplicate window): the special-encounter update,
the spell-cast branch, the combat-end branches, and otherwise the read of the
unassigned local `combat_ended` at line 1000, which raises
`UnboundLocalError`.  Every statement from line 1031 on (the wrap-counter,
turn-pass, stack-counter, preparation and damage handlers) sits below that
read and is unreachable. -/
def after_dedup (line : String) (s : TrackerState) : TrackerState × Option PyErr :=
  let s := sac_update line s
  if containsSub line "lance le sort" then spell_branch line s
  else if combat_end_cond line s.is_sac_patate_combat then combat_end_branch s
  else (s, some (.unboundLocal "combat_ended"))

/-- The body of `parse_log_line` (lines 880-1227): duplicate rejection
(lines 885-914 — all three syntactic paths perform the same
`hash(line.strip())` membership test and insertion), the window trim
(lines 916-919), then the line dispatch. -/
def parse_body (enum : List String → List String) (line : String) (s : TrackerState) :
    TrackerState × Option PyErr :=
  if pyMem (fingerprint line) s.processed_lines then (s, none)
  else
    after_dedup line
      (trim_window enum
        { s with processed_lines := s.processed_lines ++ [fingerprint line] })

/-- `parse_log_line` as its caller sees it: the `except Exception: pass` of
lines 1229-1230 swallows every error, leaving the state reached at the point
of failure. -/
def parse_log_line (enum : List String → List String) (line : String) (s : TrackerState) :
    TrackerState :=
  (parse_body enum line s).1

/-- The identity enumeration of the duplicate window, used to instantiate the
arbitrary set-enumeration parameter in concrete runs. -/
def enumId : List String → List String := fun l => l

/-- States reachable from the freshly constructed tracker by processing lines
(under any set-enumeration behaviour). -/
inductive Reachable : TrackerState → Prop
  | init : Reachable init_state
  | step (enum : List String → List String) (line : String) (s : TrackerState) :
      Reachable s → Reachable (parse_log_line enum line s)

/-! ## Helper lemmas -/

theorem pyMem_append_self (l : List String) (a : String) : pyMem a (l ++ [a]) = true := by
  induction l with
  | nil => simp [pyMem]
  | cons b t ih => simp [pyMem, ih]

theorem after_dedup_processed (line : String) (s : TrackerState) :
    ((after_dedup line s).1).processed_lines = s.processed_lines := by
  unfold after_dedup spell_branch combat_end_branch sac_update
  simp only [ougi_spells, current_turn_spells]
  repeat' split
  all_goals rfl

theorem after_dedup_tracked (line : String) (s : TrackerState) :
    ((after_dedup line s).1).tracked_player_name = s.tracked_player_name := by
  unfold after_dedup spell_branch combat_end_branch sac_update
  simp only [ougi_spells, current_turn_spells]
  repeat' split
  all_goals rfl

/-- `tracked_player_name` is never written on any reachable path of
`parse_log_line`: the only assignments in the source (lines 949 and 1041)
both sit in dead code. -/
theorem parse_tracked_unchanged (enum : List String → List String) (line : String)
    (s : TrackerState) :
    (parse_log_line enum line s).tracked_player_name = s.tracked_player_name := by
  unfold parse_log_line parse_body
  split
  · rfl
  · rw [after_dedup_tracked]
    rfl

theorem sac_flag_eq (enum : List String → List String) (line : String) (s : TrackerState)
    (l : List String) :
    (sac_update line (trim_window enum { s with processed_lines := l })).is_sac_patate_combat =
      (if sacMarker line then true else s.is_sac_patate_combat) := rfl

/-- On any line that does not satisfy the combat-end condition of lines
993-998, every resource field, the confirmation flag and the timeline are
left unchanged: a spell-cast line dies at the absent `ougi_spells` attribute
(line 943) before any resource write, and every other line dies at the
unbound local `combat_ended` (line 1000) before the handlers. -/
theorem parse_resources_unchanged (enum : List String → List String) (line : String)
    (s : TrackerState)
    (h : combat_end_cond line (if sacMarker line then true else s.is_sac_patate_combat) = false) :
    (parse_log_line enum line s).rage = s.rage ∧
    (parse_log_line enum line s).tracker = s.tracker ∧
    (parse_log_line enum line s).prey = s.prey ∧
    (parse_log_line enum line s).current_rage = s.current_rage ∧
    (parse_log_line enum line s).current_tracker = s.current_tracker ∧
    (parse_log_line enum line s).current_prey = s.current_prey ∧
    (parse_log_line enum line s).pending_rage_loss = s.pending_rage_loss ∧
    (parse_log_line enum line s).timeline_entries = s.timeline_entries := by
  cases hd : pyMem (fingerprint line) s.processed_lines
  · cases hsp : containsSub line "lance le sort"
    · have hc : combat_end_cond line
          (sac_update line (trim_window enum
            { s with processed_lines := s.processed_lines ++ [fingerprint line] })).is_sac_patate_combat = false := by
        rw [sac_flag_eq]; exact h
      simp only [parse_log_line, parse_body, after_dedup, hd, hsp, hc,
        Bool.false_eq_true, if_false]
      simp [sac_update, trim_window]
    · simp only [parse_log_line, parse_body, after_dedup, spell_branch, hd, hsp,
        ougi_spells, Bool.false_eq_true, if_false, if_true]
      cases hcn : (extract_caster line).map pyStrip <;>
        simp [hcn, sac_update, trim_window]
  · simp [parse_log_line, parse_body, hd]

/-- No reachable statement of `parse_log_line` ever assigns `True` to
`pending_rage_loss`: the dedup paths and the unbound-local path leave it
alone, the spell branch dies before touching it, and the combat-end branch
resets it to `False` (line 1018).  The only `True` assignment in the class
would sit in the dead preparation/damage sub-flow. -/
theorem parse_pending_not_set (enum : List String → List String) (line : String)
    (s : TrackerState) (h : s.pending_rage_loss = false) :
    (parse_log_line enum line s).pending_rage_loss = false := by
  unfold parse_log_line parse_body after_dedup spell_branch combat_end_branch sac_update
  simp only [ougi_spells, current_turn_spells]
  repeat' split
  all_goals (first | exact h | rfl)

/-- Invariant: `pending_rage_loss` is `False` in every reachable state. -/
theorem reachable_pending (s : TrackerState) (hr : Reachable s) :
    s.pending_rage_loss = false := by
  induction hr with
  | init => rfl
  | step enum line s hr ih => exact parse_pending_not_set enum line s ih

/-! ## Claims -/

/-- C9: on every input line that contains neither `lance le sort` nor a
combat-end marker (the explicit end phrase, or a KO/hors-combat phrase while
the special-encounter flag — as updated by line 921 — is set), the body of
`parse_log_line` reads the local `combat_ended` before any branch has
assigned it and raises an unbound-local error, which the enclosing handler
swallows; the wrap-counter, turn-pass, stack-counter, preparation and damage
handlers below line 1030 are therefore unreachable for such lines, and no
resource field changes. -/
theorem c9_unbound_local_swallowed (enum : List String → List String) (line : String)
    (s : TrackerState)
    (hdup : pyMem (fingerprint line) s.processed_lines = false)
    (hspell : containsSub line "lance le sort" = false)
    (hend : combat_end_cond line
      (if sacMarker line then true else s.is_sac_patate_combat) = false) :
    (parse_body enum line s).2 = some (PyErr.unboundLocal "combat_ended") ∧
    (parse_log_line enum line s).rage = s.rage ∧
    (parse_log_line enum line s).tracker = s.tracker ∧
    (parse_log_line enum line s).prey = s.prey ∧
    (parse_log_line enum line s).current_rage = s.current_rage ∧
    (parse_log_line enum line s).current_tracker = s.current_tracker ∧
    (parse_log_line enum line s).current_prey = s.current_prey := by
  have hres := parse_resources_unchanged enum line s hend
  refine ⟨?_, hres.1, hres.2.1, hres.2.2.1, hres.2.2.2.1, hres.2.2.2.2.1, hres.2.2.2.2.2.1⟩
  have hc : combat_end_cond line
      (sac_update line (trim_window enum
        { s with processed_lines := s.processed_lines ++ [fingerprint line] })).is_sac_patate_combat
        = false := by
    rw [sac_flag_eq]; exact hend
  simp only [parse_body, after_dedup, hdup, hspell, hc, Bool.false_eq_true, if_false]

/-- Witness for C9: a preparation-gain line processed from the fresh state is
swallowed as an unbound-local error and leaves the wrap counter unchanged. -/
def w9_line : String := "[Information (combat)] Belluya: Pr√©paration (+20 Niv.)"

theorem c9_unbound_local_swallowed_witness :
    pyMem (fingerprint w9_line) init_state.processed_lines = false ∧
    prepGainMatch w9_line = true ∧
    (parse_body enumId w9_line init_state).2 = some (PyErr.unboundLocal "combat_ended") ∧
    (parse_log_line enumId w9_line init_state).rage = init_state.rage :=
  ⟨by decide, by decide,
    (c9_unbound_local_swallowed enumId w9_line init_state (by decide) (by decide) (by decide)).1,
    (c9_unbound_local_swallowed enumId w9_line init_state (by decide) (by decide) (by decide)).2.1⟩

/-- C3: an actor-scoped counter event line (counter gain or counter loss)
whose associated actor differs from the tracked actor leaves the wrap counter
and the stack counter unchanged. -/
theorem c3_ownership_gate (enum : List String → List String) (line : String)
    (s : TrackerState)
    (hevent : isCounterEventLine line = true)
    (hactor : bracketActor line ≠ s.tracked_player_name)
    (hend : combat_end_cond line
      (if sacMarker line then true else s.is_sac_patate_combat) = false) :
    (parse_log_line enum line s).rage = s.rage ∧
    (parse_log_line enum line s).tracker = s.tracker := by
  have hres := parse_resources_unchanged enum line s hend
  exact ⟨hres.1, hres.2.1⟩

def w3_line : String := "[Information (combat)] Eve: tracker (+30 Niv.)"

def c3_state : TrackerState :=
  { init_state with tracked_player_name := some "Belluya", tracker := 7, rage := 12 }

theorem c3_ownership_gate_witness :
    isCounterEventLine w3_line = true ∧
    bracketActor w3_line ≠ c3_state.tracked_player_name ∧
    (parse_log_line enumId w3_line c3_state).tracker = c3_state.tracker :=
  ⟨by decide, by decide,
    (c3_ownership_gate enumId w3_line c3_state (by decide) (by decide) (by decide)).2⟩

/-- C10: `pending_rage_loss` starts `False`, no processing step ever turns it
`True`, so it is `False` in every reachable state; consequently the
damage-confirmation branch (lines 1204-1227) never fires and a damage line
never clears the preparation counter. -/
theorem c10_pending_confirmation_never_armed :
    init_state.pending_rage_loss = false ∧
    (∀ (enum : List String → List String) (line : String) (s : TrackerState),
      s.pending_rage_loss = false → (parse_log_line enum line s).pending_rage_loss = false) ∧
    (∀ s : TrackerState, Reachable s → s.pending_rage_loss = false) ∧
    (∀ (enum : List String → List String) (line : String) (s : TrackerState),
      Reachable s → damageLineMatch line = true →
      combat_end_cond line (if sacMarker line then true else s.is_sac_patate_combat) = false →
      (parse_log_line enum line s).rage = s.rage) :=
  ⟨rfl, parse_pending_not_set, reachable_pending,
    fun enum line s _ _ hend => (parse_resources_unchanged enum line s hend).1⟩

def w10_line : String := "[Information (combat)] Sac √† patates: -64 PV  (Feu)"

theorem c10_pending_confirmation_never_armed_witness :
    Reachable init_state ∧ damageLineMatch w10_line = true ∧
    (parse_log_line enumId w10_line init_state).rage = init_state.rage :=
  ⟨Reachable.init, by decide,
    c10_pending_confirmation_never_armed.2.2.2 enumId w10_line init_state Reachable.init
      (by decide) (by decide)⟩

/-- C4 (amended): processing an accepted combat-end line resets the wrap
counter, the stack counter and the boolean flag, clears the timeline and the
pending confirmation — but it leaves `tracked_player_name` unchanged: the
branch at lines 1000-1029 never touches the tracked-actor binding. -/
theorem c4_combat_end_resets (enum : List String → List String) (line : String)
    (s : TrackerState)
    (hdup : pyMem (fingerprint line) s.processed_lines = false)
    (hend : containsSub line "Combat termin√©" = true)
    (hspell : containsSub line "lance le sort" = false) :
    (parse_log_line enum line s).rage = 0 ∧
    (parse_log_line enum line s).tracker = 0 ∧
    (parse_log_line enum line s).prey = false ∧
    (parse_log_line enum line s).timeline_entries = [] ∧
    (parse_log_line enum line s).pending_rage_loss = false ∧
    (parse_log_line enum line s).rage_loss_caster = none ∧
    (parse_log_line enum line s).tracked_player_name = s.tracked_player_name := by
  have hc : combat_end_cond line
      (sac_update line (trim_window enum
        { s with processed_lines := s.processed_lines ++ [fingerprint line] })).is_sac_patate_combat
        = true := by
    unfold combat_end_cond
    rw [hend]
    simp
  simp only [parse_log_line, parse_body, after_dedup, hdup, hspell, hc, Bool.false_eq_true,
    if_false, if_true, combat_end_branch, current_turn_spells]
  simp [sac_update, trim_window]

def c4_line : String := "Combat termin√©"

def c4_state : TrackerState :=
  { init_state with
    tracked_player_name := some "Belluya",
    rage := 55,
    tracker := 3,
    prey := true,
    pending_rage_loss := true,
    timeline_entries := [⟨"Bond", "1PA"⟩] }

/-- Counterexample to C4 as stated: a combat-end line does not clear the
tracked-actor binding. -/
theorem c4_tracked_actor_not_cleared :
    (parse_log_line enumId c4_line c4_state).tracked_player_name ≠ none := by decide

theorem c4_combat_end_resets_witness :
    pyMem (fingerprint c4_line) c4_state.processed_lines = false ∧
    (parse_log_line enumId c4_line c4_state).rage = 0 ∧
    (parse_log_line enumId c4_line c4_state).tracked_player_name =
      c4_state.tracked_player_name :=
  ⟨by decide,
    (c4_combat_end_resets enumId c4_line c4_state (by decide) (by decide) (by decide)).1,
    (c4_combat_end_resets enumId c4_line c4_state (by decide)
      (by decide) (by decide)).2.2.2.2.2.2⟩

/-- C6 (amended): line processing never raises to its caller — every error is
swallowed — but a failing line can leave a partial state change: an accepted
spell-cast line records the caster in `last_spell_caster` (line 940) and its
dedup fingerprint before line 943 fails on the absent `ougi_spells`
attribute. -/
theorem c6_swallowed_with_partial_state (enum : List String → List String) (line : String)
    (s : TrackerState)
    (hdup : pyMem (fingerprint line) s.processed_lines = false)
    (hspell : containsSub line "lance le sort" = true)
    (hlen : s.processed_lines.length ≤ 999) :
    (parse_body enum line s).2 = some (PyErr.attributeError "ougi_spells") ∧
    (parse_log_line enum line s).last_spell_caster =
      (match (extract_caster line).map pyStrip with
       | some c => some c
       | none => s.last_spell_caster) ∧
    pyMem (fingerprint line) (parse_log_line enum line s).processed_lines = true := by
  have hlt : ¬ 1000 < s.processed_lines.length + 1 := by omega
  have htrim : (trim_window enum
      { s with processed_lines := s.processed_lines ++ [fingerprint line] }).processed_lines =
      s.processed_lines ++ [fingerprint line] := by
    unfold trim_window
    simp [hlt]
  refine ⟨?_, ?_, ?_⟩
  · simp only [parse_body, after_dedup, spell_branch, hdup, hspell, ougi_spells,
      Bool.false_eq_true, if_false, if_true]
  · simp only [parse_log_line, parse_body, after_dedup, spell_branch, hdup, hspell,
      ougi_spells, Bool.false_eq_true, if_false, if_true]
    cases hcn : (extract_caster line).map pyStrip <;> simp [hcn, sac_update, trim_window]
  · have hproc : (parse_log_line enum line s).processed_lines =
        s.processed_lines ++ [fingerprint line] := by
      unfold parse_log_line parse_body
      simp only [hdup, Bool.false_eq_true, if_false]
      rw [after_dedup_processed]
      exact htrim
    rw [hproc]
    exact pyMem_append_self _ _

def c6_line : String := "[Information (combat)] Eve: lance le sort Fulgur"

/-- Counterexample to C6 as stated: processing this spell line fails
internally, yet the domain state afterwards differs from the state before
(the caster was recorded before the failure). -/
theorem c6_partial_state_on_failure :
    (parse_body enumId c6_line init_state).2 ≠ none ∧
    (parse_log_line enumId c6_line init_state).last_spell_caster ≠
      init_state.last_spell_caster := by decide

def c6w_line : String := "[Information (combat)] Belluya: lance le sort Bond"

theorem c6_swallowed_with_partial_state_witness :
    containsSub c6w_line "lance le sort" = true ∧
    (parse_body enumId c6w_line init_state).2 = some (PyErr.attributeError "ougi_spells") :=
  ⟨by decide,
    (c6_swallowed_with_partial_state enumId c6w_line init_state (by decide) (by decide)
      (by decide)).1⟩

/-- C7 (amended): feeding the identical (trimmed) line twice in succession
yields exactly one accepted classification provided the window did not
overflow on the first feed (at most 999 fingerprints beforehand) — the second
feed is rejected and changes nothing; and when the window exceeds 1000
fingerprints it is trimmed to the last 500 of the set's arbitrary
enumeration, not necessarily the 500 most-recently-inserted. -/
theorem c7_dedup_and_trim :
    (∀ (enum : List String → List String) (line : String) (s : TrackerState),
      s.processed_lines.length ≤ 999 →
      parse_log_line enum line (parse_log_line enum line s) = parse_log_line enum line s) ∧
    (∀ (enum : List String → List String) (line : String) (s : TrackerState),
      pyMem (fingerprint line) s.processed_lines = false →
      1000 ≤ s.processed_lines.length →
      (parse_log_line enum line s).processed_lines =
        (enum (s.processed_lines ++ [fingerprint line])).drop
          ((enum (s.processed_lines ++ [fingerprint line])).length - 500)) := by
  constructor
  · intro enum line s hlen
    have key : ∀ t : TrackerState, pyMem (fingerprint line) t.processed_lines = true →
        parse_log_line enum line t = t := by
      intro t ht
      unfold parse_log_line parse_body
      simp [ht]
    cases hd : pyMem (fingerprint line) s.processed_lines
    · have hproc : (parse_log_line enum line s).processed_lines =
          s.processed_lines ++ [fingerprint line] := by
        unfold parse_log_line parse_body
        simp only [hd, Bool.false_eq_true, if_false]
        rw [after_dedup_processed]
        unfold trim_window
        have hlt : ¬ 1000 < s.processed_lines.length + 1 := by omega
        simp [hlt]
      exact key _ (by rw [hproc]; exact pyMem_append_self _ _)
    · have h1 : parse_log_line enum line s = s := key s hd
      rw [h1]
      exact h1
  · intro enum line s hdup hlen
    unfold parse_log_line parse_body
    simp only [hdup, Bool.false_eq_true, if_false]
    rw [after_dedup_processed]
    unfold trim_window
    have hgt : 1000 < s.processed_lines.length + 1 := by omega
    simp [hgt]

theorem c7_dedup_and_trim_witness :
    init_state.processed_lines.length ≤ 999 ∧
    parse_log_line enumId "hello" (parse_log_line enumId "hello" init_state) =
      parse_log_line enumId "hello" init_state :=
  ⟨by decide, c7_dedup_and_trim.1 enumId "hello" init_state (by decide)⟩

/-- A window of 1000 distinct fingerprints, in insertion order. -/
def c7_window : List String := (List.range 1000).map (fun i => "s" ++ toString i)

def c7_state : TrackerState := { init_state with processed_lines := c7_window }

set_option maxRecDepth 100000 in
/-- Counterexample to C7 as stated: with `List.reverse` as the (legitimate —
it permutes the window) set enumeration, the overflow trim does not retain
the 500 most-recently-inserted fingerprints: the retained window differs from
the last 500 of the insertion order. -/
theorem c7_trim_not_most_recent :
    (List.reverse (c7_state.processed_lines ++ [fingerprint "x"])).Perm
      (c7_state.processed_lines ++ [fingerprint "x"]) ∧
    (parse_log_line List.reverse "x" c7_state).processed_lines ≠
      (c7_state.processed_lines ++ [fingerprint "x"]).drop
        ((c7_state.processed_lines.length + 1) - 500) :=
  ⟨List.reverse_perm _, by decide⟩

/-- C8 (amended): every call of `add_spell_to_timeline` fails with an
attribute error — `spell_cost_map` is never assigned anywhere in the class —
and creates no entry, so no sequence of pushes ever grows the timeline. -/
theorem c8_push_always_fails (spell_name : String) (entries : List TimelineEntry) :
    add_spell_to_timeline spell_name entries =
      (entries, some (PyErr.attributeError "spell_cost_map")) := rfl

/-- A single push as the state change it performs on the entry list. -/
def c8_push (entries : List TimelineEntry) (name : String) : List TimelineEntry :=
  (add_spell_to_timeline name entries).1

/-- Counterexample to C8 as stated: pushing six spells of the icon map leaves
zero timeline entries, not five. -/
theorem c8_six_pushes_leave_no_entries :
    ((["Fulgur", "Bond", "Jabs", "Rafale", "Focus", "Charge"] : List String).foldl
      c8_push []).length ≠ 5 := by decide

def c1_line : String := "[Information (combat)] Belluya: rage (+140 Niv.)"

def c1_state : TrackerState :=
  { init_state with rage := 7, prey := true, tracked_player_name := some "Belluya" }

/-- C1 at the failing input: a wrap-counter gain line reporting a cumulative
total of 140 is matched by the rage pattern, yet processing it dies on the
unbound `combat_ended` local before the handler of lines 1036-1061, so the
wrap counter keeps its old value 7 (not 140 mod 100 = 40) and the boolean
flag stays set. -/
theorem c1_rage_gain_line_is_noop :
    rageGainMatch c1_line = true ∧
    (parse_body enumId c1_line c1_state).2 = some (PyErr.unboundLocal "combat_ended") ∧
    (parse_log_line enumId c1_line c1_state).rage = 7 ∧
    (parse_log_line enumId c1_line c1_state).prey = true := by decide

def c2_line : String := "[Information (combat)] Belluya: tracker (+80 Niv.) (Compulsion)"

def c2_state : TrackerState := { init_state with tracked_player_name := some "Belluya" }

/-- C2 at the failing input: a tagged stack-counter gain line of amount 80 is
matched by the tagged pattern of line 1153 — and also by the untagged pattern
of line 1131, which precedes it and would shadow it — yet processing the line
dies on the unbound `combat_ended` local before either handler, leaving the
stack counter at 0 (the claim expects 4). -/
theorem c2_stack_gain_line_is_noop :
    trackerTaggedMatch c2_line = true ∧
    trackerGainMatch c2_line = true ∧
    (parse_body enumId c2_line c2_state).2 = some (PyErr.unboundLocal "combat_ended") ∧
    (parse_log_line enumId c2_line c2_state).tracker = 0 := by decide

def c5_line : String := "[Information (combat)] 2 secondes report√©es pour le tour suivant"

def c5_state : TrackerState :=
  { init_state with
    pending_rage_loss := true,
    rage_loss_caster := some "Belluya",
    tracked_player_name := some "Belluya",
    last_spell_caster := some "Belluya",
    rage := 50 }

/-- C5 at the failing input: a turn-pass line by the tracked turn owner while
a pending confirmation is armed dies on the unbound `combat_ended` local
before the turn-pass handler of lines 1065-1128, so the pending confirmation
is not cancelled (it stays armed), and the wrap counter and visibility flag
are untouched. -/
theorem c5_turn_pass_does_not_cancel_pending :
    isTurnPassLine c5_line = true ∧
    (parse_body enumId c5_line c5_state).2 = some (PyErr.unboundLocal "combat_ended") ∧
    (parse_log_line enumId c5_line c5_state).pending_rage_loss = true ∧
    (parse_log_line enumId c5_line c5_state).rage = 50 ∧
    (parse_log_line enumId c5_line c5_state).overlay_visible = c5_state.overlay_visible := by
  decide
